import Mathlib

/-!
Verification development for the LinkedIn engagement worker repository.

We give a shallow embedding of the job-processing core:
 * the Filter/RankEngine (`src/utils/postFilters.js`, recovered as `src/unnamed/part_008`):
   `isExcludedPost`, `filterPosts`, `rankPosts`;
 * the rate-limit governor of `src/workers/commentWorker.js`:
   `checkRateLimit`, `handleRateLimitError`;
 * the two queue handlers (`src/workers/commentWorker.js` and
   `src/workers/linkedPostRefinementWorker.js`) as state transformers over an
   explicit document store (jobs, posts, session reports), with the external
   browser/scrape/AI effects abstracted into an environment record.

JavaScript machine integers do not overflow for the quantities involved
(counters, millisecond timestamps), so counts are `Nat` and timestamps `Int`.
JavaScript `Array.prototype.sort` is specified (ES2019+) to be a stable sort
with respect to the comparator; the unique stable sorted permutation is
produced by `List.insertionSort`, which we use as its embedding.
-/

/-! ### Strings: JS `String.prototype.includes` and lowercasing -/

/-- Is `pat` an initial segment of `s`?  (character-exact) -/
def charsPre (pat s : List Char) : Bool :=
  match pat, s with
  | [], _ => true
  | _ :: _, [] => false
  | a :: ps, b :: ss => a == b && charsPre ps ss

/-- Does `pat` occur contiguously inside `s`? -/
def charsIncl (s pat : List Char) : Bool :=
  charsPre pat s ||
    match s with
    | [] => false
    | _ :: t => charsIncl t pat

/-- JS `s.includes(pat)`. -/
def strIncludes (s pat : String) : Bool :=
  charsIncl s.data pat.data

/-! ### Filter/RankEngine (part_008, lines 334-537 of the recovered bundle) -/

/-- The stop-word list of `postFilters.js` (also duplicated inline in both workers). -/
def STOP_WORDS : List String :=
  ["hiring", "we\x27re looking for", "job opportunity", "new position at",
   "looking for", "join our team", "work anniversary", "started a new position",
   "say congrats", "congratulations", "happy work anniversary", "celebrating"]

/-- Character-level embedding of JS `toLowerCase()` (the texts involved are
ASCII). -/
def lowerChars (s : List Char) : List Char :=
  s.map Char.toLower

/-- `isExcludedPost(postText)`: some stop word occurs in the lowercased text
(`STOP_WORDS.some((word) => postText.toLowerCase().includes(word))`). -/
def isExcludedPost (postText : String) : Bool :=
  STOP_WORDS.any (fun word => charsIncl (lowerChars postText.data) word.data)

/-- One scraped post, as built by the scrape loops of both workers
(`{ content/text, reactions, comments, postUrl, keyword }`). -/
structure ScrapedPost where
  text : String
  reactions : Nat
  comments : Nat
  postUrl : String
  keyword : String
deriving DecidableEq, Repr

/-- The ranking score `reactions + comments` used by `rankPosts` and by the
sort step of `filterPosts`. -/
def engagementScore (p : ScrapedPost) : Nat :=
  p.reactions + p.comments

/-- The comparator `(a, b) => bScore - aScore` orders posts by descending
`engagementScore`; `postGE a b` says `a` may come no later than `b`. -/
def postGE (a b : ScrapedPost) : Prop :=
  engagementScore b ≤ engagementScore a

instance : DecidableRel postGE := fun a b =>
  inferInstanceAs (Decidable (engagementScore b ≤ engagementScore a))

instance : IsTotal ScrapedPost postGE :=
  ⟨fun a b => Nat.le_total (engagementScore b) (engagementScore a)⟩

instance : IsTrans ScrapedPost postGE :=
  ⟨fun _ _ _ h1 h2 => Nat.le_trans h2 h1⟩

/-- Embedding of JS `array.sort((a, b) => bScore - aScore)`:
the stable sort by descending engagement score. -/
def jsSortDesc (l : List ScrapedPost) : List ScrapedPost :=
  l.insertionSort postGE

/-- Options destructured at the top of `filterPosts` (defaults from the source). -/
structure FilterOptions where
  minReactions : Nat := 10
  excludeJobPosts : Bool := true
deriving DecidableEq, Repr

/-- The three filter passes of `filterPosts` (part_008 lines 436-452), without
the final sort.  The source reads `post.text || post.content` and
`post.text || post.content || ''`; for the worker-built post objects the
`content` field is absent and `text` is the scraped content, so both
expressions reduce to `text`. -/
def survivors (posts : List ScrapedPost) (options : FilterOptions) : List ScrapedPost :=
  let f1 := posts.filter (fun p => options.minReactions ≤ p.reactions)
  let f2 := if options.excludeJobPosts then
      f1.filter (fun p => !(isExcludedPost p.text))
    else f1
  f2.filter (fun p => 30 ≤ p.text.length)

/-- The conjunction of the three `filterPosts` predicates, for reasoning about
`survivors` as a single filter. -/
def passes (options : FilterOptions) (x : ScrapedPost) : Bool :=
  decide (options.minReactions ≤ x.reactions) &&
    (if options.excludeJobPosts then !(isExcludedPost x.text) else true) &&
    decide (30 ≤ x.text.length)

/-- `filterPosts(posts, options)` (part_008 lines 425-462): copy the input,
filter by engagement threshold, stop words and content length, then sort by
descending `reactions + comments`. -/
def filterPosts (posts : List ScrapedPost) (options : FilterOptions) : List ScrapedPost :=
  jsSortDesc (survivors posts options)

/-- Contents of the array passed by the caller after `filterPosts` returns: the function
starts from the spread copy `[...posts]` and never touches the argument, so
the input array is unchanged. -/
def filterPostsInputAfter (posts : List ScrapedPost) (_options : FilterOptions) :
    List ScrapedPost :=
  posts

/-- `rankPosts(posts)` (part_008 lines 380-386, duplicated in
`linkedPostRefinementWorker.js` lines 174-180): `posts.sort(...)` sorts the
array in place and returns that same array. -/
def rankPosts (posts : List ScrapedPost) : List ScrapedPost :=
  jsSortDesc posts

/-- Contents of the array passed by the caller after `rankPosts` returns: `Array.prototype.sort`
mutates its receiver, so the input array now holds the sorted order. -/
def rankPostsInputAfter (posts : List ScrapedPost) : List ScrapedPost :=
  rankPosts posts

/-- The selection actually acted upon: `commentWorker.js` line 1096 iterates
`filteredPosts[0 .. min(filteredPosts.length, maxComments))`, and
`linkedPostRefinementWorker.js` line 939 takes `slice(0, maxComments)` of the
ranked list. -/
def selectedForAction (posts : List ScrapedPost) (options : FilterOptions)
    (maxComments : Nat) : List ScrapedPost :=
  (filterPosts posts options).take maxComments

/-! ### Rate-limit governor (`commentWorker.js` lines 21-108) -/

/-- One budget window of the tracker `requestCount`. -/
structure RateWindow where
  count : Nat
  resetTime : Int
deriving DecidableEq, Repr

/-- The process-wide tracker `requestCount = { minute, hour }`. -/
structure RequestCount where
  minute : RateWindow
  hour : RateWindow
deriving DecidableEq, Repr

def MAX_REQUESTS_PER_MINUTE : Nat := 5
def MAX_REQUESTS_PER_HOUR : Nat := 50

/-- The two leading reset steps of `checkRateLimit` (lines 42-49):
a window whose reset time has passed restarts at count 0. -/
def applyResets (now : Int) (rc : RequestCount) : RequestCount :=
  { minute := if rc.minute.resetTime < now then ⟨0, now + 60000⟩ else rc.minute
    hour := if rc.hour.resetTime < now then ⟨0, now + 3600000⟩ else rc.hour }

/-- `checkRateLimit()` (lines 38-69): reset expired windows; if a cap is
reached return the remaining wait, otherwise increment both counters and
return 0.  Result: (returned wait time, tracker state after the call). -/
def checkRateLimit (now : Int) (rc : RequestCount) : Int × RequestCount :=
  let rc1 := applyResets now rc
  if MAX_REQUESTS_PER_MINUTE ≤ rc1.minute.count then
    (rc1.minute.resetTime - now, rc1)
  else if MAX_REQUESTS_PER_HOUR ≤ rc1.hour.count then
    (rc1.hour.resetTime - now, rc1)
  else
    (0, { minute := ⟨rc1.minute.count + 1, rc1.minute.resetTime⟩
          hour := ⟨rc1.hour.count + 1, rc1.hour.resetTime⟩ })

/-- The throttling-signal test of lines 80-83: the error message contains
`429` or `Too Many Requests`. -/
def isRateLimitMsg (msg : String) : Bool :=
  strIncludes msg "429" || strIncludes msg "Too Many Requests"

/-- Observable behaviour of one `handleRateLimitError` call: the waits slept
(one before each reload attempt), whether the function returned `true`
(recovered) or `false` (no throttling signal, or a zero retry budget), and the
terminal error thrown when every reload failed. -/
structure HrleResult where
  waits : List Nat
  recovered : Bool
  terminalError : Option String
deriving DecidableEq, Repr

/-- The retry loop of `handleRateLimitError` (lines 88-105).  `reloadOk a`
tells whether the `page.reload` of attempt `a` succeeds.  The fuel argument
starts at `maxRetries` so the structural recursion covers every iteration. -/
def hrleGo (reloadOk : Nat → Bool) (maxRetries : Nat) :
    Nat → Nat → List Nat → HrleResult
  | 0, _, acc => { waits := acc, recovered := false, terminalError := none }
  | fuel + 1, attempt, acc =>
    if attempt < maxRetries then
      let acc1 := acc ++ [(attempt + 1) * 30000]
      if reloadOk attempt then
        { waits := acc1, recovered := true, terminalError := none }
      else if attempt = maxRetries - 1 then
        { waits := acc1, recovered := false
          terminalError := some "Rate limit recovery failed" }
      else
        hrleGo reloadOk maxRetries fuel (attempt + 1) acc1
    else
      { waits := acc, recovered := false, terminalError := none }

/-- `handleRateLimitError(page, error, operation, maxRetries = 3)`
(lines 79-108): if the message carries a throttling signal, wait
`(attempt + 1) * 30000` ms and reload, up to `maxRetries` times; throw when
every reload failed; otherwise report `false` (not a rate-limit error). -/
def handleRateLimitError (msg : String) (reloadOk : Nat → Bool)
    (maxRetries : Nat := 3) : HrleResult :=
  if isRateLimitMsg msg then
    hrleGo reloadOk maxRetries maxRetries 0 []
  else
    { waits := [], recovered := false, terminalError := none }

/-! ### Document store (models `CommentJob`, `Post`, `SessionReport`) -/

/-- `commentJobSchema.status`.  The schema enum (`CommentJob.js` lines 34-38)
lists only the first four values; `permanently_failed` is nevertheless written
by `linkedPostRefinementWorker.js` line 522, and update queries do not run the
enum validator, so the store accepts it. -/
inductive JobStatus where
  | waiting | active | completed | failed | permanently_failed
deriving DecidableEq, Repr

/-- The `result` payload written on completion. -/
structure JobResult where
  success : Bool
  commentedCount : Nat
  totalPostsScraped : Nat
  srFiltered : Nat
  srFailed : Nat
deriving DecidableEq, Repr

/-- One `CommentJob` document (the fields the handlers read or write). -/
structure JobRecord where
  status : JobStatus
  startedAt : Option Int
  completedAt : Option Int
  failedAttempts : Nat
  error : Option String
  currentStep : String
  stepProgress : Nat
  result : Option JobResult
deriving DecidableEq, Repr

/-- One `Post` document (part_002).  `userId` is `Option` because
`commentWorker.js` builds its insert batch without a `userId` field. -/
structure PostDoc where
  postUrl : String
  userId : Option String
  content : String
  reactions : Nat
  comments : Nat
  isCommented : Bool
  commentedText : Option String
  jobId : Option String
deriving DecidableEq, Repr

/-- One `SessionReport` document (the fields the claims mention). -/
structure ReportDoc where
  jobId : String
  userId : String
  totalPostsScraped : Nat
  filteredPosts : Nat
  commentsPosted : Nat
  failed : Nat
  errors : List String
deriving DecidableEq, Repr

/-- The slice of the database a handler run touches: the job document under
the dispatched job id, the `Post` collection, and the append-only
`SessionReport` collection. -/
structure StoreState where
  job : Option JobRecord
  posts : List PostDoc
  reports : List ReportDoc
deriving DecidableEq, Repr

/-- `CommentJob.findByIdAndUpdate(jobId, fields)`: update the document if it
exists, otherwise do nothing. -/
def updateJob (st : StoreState) (f : JobRecord → JobRecord) : StoreState :=
  { st with job := st.job.map f }

/-- `SessionReport.create(...)`: append to the report collection. -/
def addReport (st : StoreState) (r : ReportDoc) : StoreState :=
  { st with reports := st.reports ++ [r] }

/-- Does a document with this `(postUrl, userId)` key exist?  The key is the
compound unique index of part_002 line 58. -/
def hasKey (posts : List PostDoc) (url : String) (uid : Option String) : Bool :=
  posts.any (fun d => d.postUrl == url && d.userId == uid)

/-- `Post.insertMany(docs)` with the default `ordered: true`
(`commentWorker.js` line 1083): documents are inserted left to right; the
first duplicate key aborts the batch with an E11000 error, leaving the
remaining documents uninserted. -/
def insertManyOrdered (store : List PostDoc) : List PostDoc → Except String (List PostDoc)
  | [] => .ok store
  | d :: ds =>
    if hasKey store d.postUrl d.userId then
      .error "E11000 duplicate key error"
    else
      insertManyOrdered (store ++ [d]) ds

/-- `Post.insertMany(docs, { ordered: false })` wrapped in the
`error.code === 11000` handler (`linkedPostRefinementWorker.js` lines
899-917): every fresh-keyed document is inserted, duplicates are skipped, and
the worker continues either way. -/
def insertManyUnordered (store : List PostDoc) (docs : List PostDoc) : List PostDoc :=
  docs.foldl
    (fun acc d => if hasKey acc d.postUrl d.userId then acc else acc ++ [d])
    store

/-- `Post.findOneAndUpdate(query, fields)`: update the first matching document. -/
def updateFirstPost (posts : List PostDoc) (pred : PostDoc → Bool)
    (f : PostDoc → PostDoc) : List PostDoc :=
  match posts with
  | [] => []
  | d :: ds =>
    if pred d then f d :: ds else d :: updateFirstPost ds pred f

/-! ### Handler outcomes and run records -/

/-- What a handler invocation produces: an early guard return
`{ success, message }`, the final success return (with its counts), or a
re-raised error. -/
inductive Outcome where
  | ret (success : Bool) (message : String)
  | done (commentedCount : Nat) (totalPostsScraped : Nat)
  | thrown (message : String)
deriving DecidableEq, Repr

/-- One handler run: final store, the chronological list of values written to
the `status` field of the job, and whether the browser was launched/closed. -/
structure WorkerRun where
  store : StoreState
  statusWrites : List JobStatus
  browserLaunched : Bool
  browserClosed : Bool
  outcome : Outcome
deriving DecidableEq, Repr

/-! ### commentWorker.js handler

The variable `browser` is declared with `let` INSIDE the `try` block
(line 301).  The `catch` block (lines 1215-1261) is a sibling scope, so its
cleanup code `if (browser && ...)` reads a name that no enclosing scope
declares; in an ES module that read raises a `ReferenceError`, which the
surrounding `try { ... } catch (browserError) { ... }` swallows.  We record
the scope structure explicitly and let the model consult it. -/

/-- Names declared (`let`/`const`) in the `try` block of the commentWorker
handler, the block scope that the `catch` block cannot see. -/
def cwTryBlockScope : List String :=
  ["browser", "hasValidCookies", "cookies", "isHeadless", "page", "liAt",
   "isLoggedIn", "scrapedPosts", "totalPostsScraped", "SCRAPE_TARGET",
   "filteredPosts", "postsToSave", "commentedCount", "failedCount",
   "sessionReport"]

/-- Names visible inside the `catch` block: its own parameter, the handler
function scope (line 288-294 declarations), and the module scope. -/
def cwCatchScopes : List (List String) :=
  [["error"],
   ["startTime", "jobId", "userId", "keywords", "maxComments", "options",
    "existingJob"],
   ["redis", "RATE_LIMITS", "requestCount", "worker"]]

/-- JS name resolution: search the enclosing scopes. -/
def scopeResolves (scopes : List (List String)) (x : String) : Bool :=
  scopes.any (fun s => s.contains x)

/-- Whether the identifier `browser` resolves inside the commentWorker catch
block.  It does not: its declaration sits in `cwTryBlockScope`, which does not
enclose the catch. -/
def cwBrowserVisibleInCatch : Bool :=
  scopeResolves cwCatchScopes "browser"

/-- External effects of one commentWorker run.  The DOM-driven scrape loops
are abstracted into their outputs: `scrapedKeyword` are the posts gathered by
the keyword loop (each increments `totalPostsScraped`), `scrapedFeed` those
of the feed fallback (pushed without incrementing the counter, lines
999-1010).  `commentOk url` says whether drafting + submitting the comment on
that post succeeds. -/
structure CWEnv where
  now : Int
  hasValidCookies : Bool
  liAtPresent : Bool
  loginOk : Bool
  scrapedKeyword : List ScrapedPost
  scrapedFeed : List ScrapedPost
  commentOk : String → Bool
  aiComment : String → String

/-- Post document built by `postsToSave` (lines 1059-1081): note the absence
of a `userId` field. -/
def cwPostDoc (jobId : String) (p : ScrapedPost) : PostDoc :=
  { postUrl := p.postUrl, userId := none, content := p.text
    reactions := p.reactions, comments := p.comments
    isCommented := false, commentedText := none, jobId := some jobId }

/-- One iteration of the act loop (lines 1096-1139): on success mark the
first post with this URL commented and bump `commentedCount`; any per-item
error is caught and bumps `failedCount`. -/
def cwActStep (env : CWEnv) (acc : List PostDoc × Nat × Nat) (p : ScrapedPost) :
    List PostDoc × Nat × Nat :=
  let (posts, commented, failed) := acc
  if env.commentOk p.postUrl then
    (updateFirstPost posts (fun d => d.postUrl == p.postUrl)
       (fun d => { d with isCommented := true
                          commentedText := some (env.aiComment p.text) }),
     commented + 1, failed)
  else
    (posts, commented, failed + 1)

/-- The top-level `catch` of the commentWorker handler (lines 1215-1261):
mark the job failed (`failedAttempts` is NOT touched by this worker), write an
error session report, attempt the browser cleanup (dead because of the scope
structure above), and re-raise. -/
def cwCatch (env : CWEnv) (jobId userId : String) (st : StoreState)
    (writes : List JobStatus) (launched : Bool) (errMsg : String) : WorkerRun :=
  let st1 := updateJob st (fun j =>
    { j with status := .failed, error := some errMsg
             completedAt := some env.now
             currentStep := "Failed", stepProgress := 0 })
  let st2 := addReport st1
    { jobId, userId, totalPostsScraped := 0, filteredPosts := 0
      commentsPosted := 0, failed := 1, errors := [errMsg] }
  let closed := if cwBrowserVisibleInCatch then launched else false
  { store := st2, statusWrites := writes ++ [.failed]
    browserLaunched := launched, browserClosed := closed
    outcome := .thrown errMsg }

/-- The `try` body of the commentWorker handler (lines 300-1214). -/
def cwTry (env : CWEnv) (jobId userId : String) (maxComments : Nat)
    (options : FilterOptions) (st : StoreState) : WorkerRun :=
  let st1 := updateJob st (fun j =>
    { j with status := .active, startedAt := some env.now
             currentStep := "Starting", stepProgress := 10 })
  let w1 : List JobStatus := [.active]
  if !env.hasValidCookies then
    cwCatch env jobId userId st1 w1 false
      "User does not have valid LinkedIn cookies"
  else
    let st2 := updateJob st1 (fun j =>
      { j with currentStep := "Loading Cookies", stepProgress := 20 })
    let st3 := updateJob st2 (fun j =>
      { j with currentStep := "Launching Browser", stepProgress := 30 })
    -- browser = await puppeteer.launch(...)
    if !env.liAtPresent then
      cwCatch env jobId userId st3 w1 true "Missing li_at cookie"
    else if !env.loginOk then
      cwCatch env jobId userId st3 w1 true
        "LinkedIn cookies are invalid or expired. Please update cookies."
    else
      let st4 := updateJob st3 (fun j =>
        { j with currentStep := "Scraping Posts", stepProgress := 40 })
      let scrapedPosts := env.scrapedKeyword ++ env.scrapedFeed
      let totalPostsScraped := env.scrapedKeyword.length
      let st5 := updateJob st4 (fun j =>
        { j with currentStep := "Filtering Posts", stepProgress := 60 })
      let filteredPosts := filterPosts scrapedPosts options
      let postsToSave := scrapedPosts.map (cwPostDoc jobId)
      match insertManyOrdered st5.posts postsToSave with
      | .error e => cwCatch env jobId userId st5 w1 true e
      | .ok posts1 =>
        let st6 : StoreState := { st5 with posts := posts1 }
        let st7 := updateJob st6 (fun j =>
          { j with currentStep := "Generating Comments", stepProgress := 70 })
        let selected := filteredPosts.take maxComments
        let folded := selected.foldl (cwActStep env) (st7.posts, 0, 0)
        let commentedCount := folded.2.1
        let failedCount := folded.2.2
        let st8 : StoreState := { st7 with posts := folded.1 }
        let st9 := updateJob st8 (fun j =>
          { j with currentStep := "Finalizing", stepProgress := 90 })
        let st10 := addReport st9
          { jobId, userId, totalPostsScraped
            filteredPosts := filteredPosts.length
            commentsPosted := commentedCount, failed := failedCount
            errors := [] }
        let st11 := updateJob st10 (fun j =>
          { j with status := .completed, completedAt := some env.now
                   result := some { success := true, commentedCount
                                    totalPostsScraped
                                    srFiltered := filteredPosts.length
                                    srFailed := failedCount }
                   currentStep := "Completed", stepProgress := 100 })
        { store := st11, statusWrites := w1 ++ [.completed]
          browserLaunched := true, browserClosed := true
          outcome := .done commentedCount totalPostsScraped }

/-- The commentWorker queue handler (lines 287-1261): the only entry guard is
the `active` check (lines 294-298); everything else runs inside the `try`. -/
def commentWorkerHandler (env : CWEnv) (jobId userId : String)
    (maxComments : Nat) (options : FilterOptions) (st : StoreState) : WorkerRun :=
  match st.job with
  | some j =>
    if j.status = .active then
      { store := st, statusWrites := [], browserLaunched := false
        browserClosed := false
        outcome := .ret false "Job already being processed" }
    else
      cwTry env jobId userId maxComments options st
  | none => cwTry env jobId userId maxComments options st

/-! ### linkedPostRefinementWorker.js handler -/

/-- `Math.ceil(maxComments * 1.5)` (line 735). -/
def SCRAPE_TARGET (maxComments : Nat) : Nat :=
  (3 * maxComments + 1) / 2

/-- External effects of one refinement-worker run.  `pageSetupOk` covers the
page creation / stealth setup between `puppeteer.launch` (line 561) and the
assignment of the `cleanup` closure (line 612); `scraped` is the raw stream of
posts the keyword searches yield before the in-loop filters. -/
structure RWEnv where
  now : Int
  pageSetupOk : Bool
  cookieFileExists : Bool
  liAtInFile : Bool
  loginOk : Bool
  scraped : List ScrapedPost
  commentOk : String → Bool

/-- Post document built by `postsToInsert` (lines 883-897): this worker does
set `userId`. -/
def rwPostDoc (jobId userId : String) (p : ScrapedPost) : PostDoc :=
  { postUrl := p.postUrl, userId := some userId, content := p.text
    reactions := p.reactions, comments := p.comments
    isCommented := false, commentedText := none, jobId := some jobId }

/-- One iteration of the act loop (lines 949-1018): skip empty URLs; on
success mark the post (scoped to `(postUrl, jobId, userId)`) commented and
bump the counter; per-item errors are merely logged. -/
def rwActStep (env : RWEnv) (jobId userId : String)
    (acc : List PostDoc × Nat) (p : ScrapedPost) : List PostDoc × Nat :=
  let (posts, commented) := acc
  if p.postUrl == "" then
    acc
  else if env.commentOk p.postUrl then
    (updateFirstPost posts
       (fun d => d.postUrl == p.postUrl && d.jobId == some jobId &&
                 d.userId == some userId)
       (fun d => { d with isCommented := true }),
     commented + 1)
  else
    acc

/-- The top-level `catch` of the refinement worker (lines 1090-1139): close
the browser via the `cleanup` closure if it was assigned, mark the job failed
with `failedAttempts` incremented from the entry snapshot, write an error
report, and re-raise. -/
def rwCatch (env : RWEnv) (jobId userId : String) (st : StoreState)
    (writes : List JobStatus) (launched cleanupAssigned : Bool)
    (snapshot : Option JobRecord) (errMsg : String) : WorkerRun :=
  let closed := cleanupAssigned && launched
  let attempts := (match snapshot with
    | some j => j.failedAttempts
    | none => 0) + 1
  let st1 := updateJob st (fun j =>
    { j with status := .failed, error := some errMsg
             failedAttempts := attempts, completedAt := some env.now
             currentStep := "Failed", stepProgress := 0 })
  let st2 := addReport st1
    { jobId, userId, totalPostsScraped := 0, filteredPosts := 0
      commentsPosted := 0, failed := 1, errors := [errMsg] }
  { store := st2, statusWrites := writes ++ [.failed]
    browserLaunched := launched, browserClosed := closed
    outcome := .thrown errMsg }

/-- The pipeline of the refinement worker after the entry guards (lines
530-1089): set the job active (line 530, before the `try`), then run the
pipeline under the `try`. -/
def rwRun (env : RWEnv) (jobId userId : String) (maxComments : Nat)
    (st : StoreState) (snapshot : Option JobRecord) : WorkerRun :=
  let st1 := updateJob st (fun j =>
    { j with status := .active, startedAt := some env.now
             currentStep := "Starting", stepProgress := 10 })
  let w1 : List JobStatus := [.active]
  let st2 := updateJob st1 (fun j =>
    { j with currentStep := "Loading Configuration", stepProgress := 20 })
  let st3 := updateJob st2 (fun j =>
    { j with currentStep := "Launching Browser", stepProgress := 30 })
  -- browser = await puppeteer.launch(...)
  if !env.pageSetupOk then
    rwCatch env jobId userId st3 w1 true false snapshot "page setup failed"
  else
    -- cleanup = async () => { if (browser) await browser.close() ... }
    if !env.cookieFileExists || !env.liAtInFile || !env.loginOk then
      rwCatch env jobId userId st3 w1 true true snapshot
        "LinkedIn cookies are invalid or expired. Please update cookies."
    else
      let st4 := updateJob st3 (fun j =>
        { j with currentStep := "Scraping Posts", stepProgress := 40 })
      let existingPostUrls :=
        (st4.posts.filter (fun d =>
          d.jobId == some jobId && d.userId == some userId)).map (·.postUrl)
      let keep := fun (p : ScrapedPost) =>
        !(isExcludedPost p.text) && decide (5 ≤ p.reactions) &&
          !(existingPostUrls.contains p.postUrl)
      let scrapedPosts := (env.scraped.filter keep).take (SCRAPE_TARGET maxComments)
      let st5 := updateJob st4 (fun j =>
        { j with currentStep := "Processing Posts", stepProgress := 60 })
      let posts1 :=
        if scrapedPosts.isEmpty then st5.posts
        else insertManyUnordered st5.posts (scrapedPosts.map (rwPostDoc jobId userId))
      let st6 : StoreState := { st5 with posts := posts1 }
      let commentedPostUrls :=
        (st6.posts.filter (fun d =>
          d.jobId == some jobId && d.userId == some userId && d.isCommented)).map
          (·.postUrl)
      let availablePosts :=
        scrapedPosts.filter (fun p => !(commentedPostUrls.contains p.postUrl))
      let rankedPosts := rankPosts availablePosts
      let postsForCommenting := rankedPosts.take maxComments
      let folded := postsForCommenting.foldl (rwActStep env jobId userId)
        (st6.posts, 0)
      let commentedCount := folded.2
      let st7 : StoreState := { st6 with posts := folded.1 }
      let st8 := updateJob st7 (fun j =>
        { j with currentStep := "Finalizing", stepProgress := 90 })
      let st9 := addReport st8
        { jobId, userId, totalPostsScraped := scrapedPosts.length
          filteredPosts := postsForCommenting.length
          commentsPosted := commentedCount
          failed := postsForCommenting.length - commentedCount
          errors := [] }
      let st10 := updateJob st9 (fun j =>
        { j with status := .completed, completedAt := some env.now
                 result := some { success := true, commentedCount
                                  totalPostsScraped := scrapedPosts.length
                                  srFiltered := postsForCommenting.length
                                  srFailed := postsForCommenting.length - commentedCount }
                 currentStep := "Completed", stepProgress := 100 })
      { store := st10, statusWrites := w1 ++ [.completed]
        browserLaunched := true, browserClosed := true
        outcome := .done commentedCount scrapedPosts.length }

/-- The cooldown test of the second guard (lines 495-512): status completed,
a `completedAt` timestamp present, and less than 5 minutes elapsed. -/
def completedRecently (now : Int) (j : JobRecord) : Bool :=
  match j.completedAt with
  | some t => decide (now - t < 300000)
  | none => false

/-- The refinement-worker queue handler (lines 474-1140) with its three entry
guards: `active` (489), completed-recently (495-512, 5-minute cooldown), and
too-many-failed-attempts (515-528, bound 3, transitions to
`permanently_failed`). -/
def refinementHandler (env : RWEnv) (jobId userId : String) (maxComments : Nat)
    (st : StoreState) : WorkerRun :=
  match st.job with
  | some j =>
    if j.status = .active then
      { store := st, statusWrites := [], browserLaunched := false
        browserClosed := false
        outcome := .ret false "Job already being processed" }
    else if j.status = .completed ∧ completedRecently env.now j = true then
      { store := st, statusWrites := [], browserLaunched := false
        browserClosed := false
        outcome := .ret false "Job completed recently" }
    else if j.status = .failed ∧ 3 ≤ j.failedAttempts then
      let st1 := updateJob st (fun jj =>
        { jj with status := .permanently_failed
                  error := some "Job failed too many times"
                  completedAt := some env.now })
      { store := st1, statusWrites := [.permanently_failed]
        browserLaunched := false, browserClosed := false
        outcome := .ret false "Too many failed attempts" }
    else
      rwRun env jobId userId maxComments st (some j)
  | none => rwRun env jobId userId maxComments st none

/-! ### LinkedInWorker.processJob (part_005 lines 155-192)

The defensive variant: `browser` is declared OUTSIDE the `try`, and a
`finally` block closes it on every exit path. -/

structure LWEnv where
  now : Int
  launchOk : Bool
  loginOk : Bool

def linkedInWorkerProcessJob (env : LWEnv) (st : StoreState) : WorkerRun :=
  let st1 := updateJob st (fun j =>
    { j with status := .active, startedAt := some env.now })
  -- try body
  if !env.launchOk then
    -- launch failed: browser still null, finally skips the close
    let st2 := updateJob st1 (fun j =>
      { j with status := .failed, error := some "launch failed"
               completedAt := some env.now })
    { store := st2, statusWrites := [.active, .failed]
      browserLaunched := false, browserClosed := false
      outcome := .thrown "launch failed" }
  else if !env.loginOk then
    let st2 := updateJob st1 (fun j =>
      { j with status := .failed, error := some "Session validation failed after refresh"
               completedAt := some env.now })
    -- finally: browser is non-null, so it is closed
    { store := st2, statusWrites := [.active, .failed]
      browserLaunched := true, browserClosed := true
      outcome := .thrown "Session validation failed after refresh" }
  else
    { store := st1, statusWrites := [.active]
      browserLaunched := true, browserClosed := true
      outcome := .done 0 0 }


/-! ### Store invariant and concrete inputs for witnesses/counterexamples -/

/-- The uniqueness invariant enforced by the compound unique index of
part_002 line 58: no two documents share a `(postUrl, userId)` key. -/
def UniquePosts (posts : List PostDoc) : Prop :=
  posts.Pairwise (fun a b => ¬(a.postUrl = b.postUrl ∧ a.userId = b.userId))

/-- A post surviving every filter: 30 characters of text, 10 reactions. -/
def pA : ScrapedPost :=
  ⟨"aaaaaaaaaaaaaaaaaaaaaaaaaaaaaa", 10, 0, "https://a", "k"⟩

/-- A higher-engagement survivor. -/
def pB : ScrapedPost :=
  ⟨"bbbbbbbbbbbbbbbbbbbbbbbbbbbbbb", 15, 2, "https://b", "k"⟩

/-- Same engagement score as `pA`, discovered later. -/
def pC : ScrapedPost :=
  ⟨"cccccccccccccccccccccccccccccc", 9, 1, "https://c", "k"⟩

/-- A fresh `waiting` job record. -/
def jWaiting : JobRecord :=
  { status := .waiting, startedAt := none, completedAt := none
    failedAttempts := 0, error := none, currentStep := ""
    stepProgress := 0, result := none }

/-- Store holding only the fresh waiting job. -/
def stWaiting : StoreState :=
  { job := some jWaiting, posts := [], reports := [] }

/-- Store whose job is currently `active`. -/
def stActive : StoreState :=
  { job := some { jWaiting with status := .active }, posts := [], reports := [] }

/-- Store whose job completed 60 s ago (inside the 5-minute cooldown), with
one session report already written by that completed run. -/
def stCooled : StoreState :=
  { job := some { jWaiting with status := .completed, completedAt := some 0 }
    posts := []
    reports := [{ jobId := "j1", userId := "u1", totalPostsScraped := 2
                  filteredPosts := 2, commentsPosted := 2, failed := 0
                  errors := [] }] }

/-- A job record that already failed three times. -/
def jFailed3 : JobRecord :=
  { jWaiting with status := .failed, failedAttempts := 3 }

/-- Store whose job is `failed` with the attempt bound reached. -/
def stFailed3 : StoreState :=
  { job := some jFailed3, posts := [], reports := [] }

/-- Store whose job already carries the terminal `permanently_failed` status. -/
def stPermFailed : StoreState :=
  { job := some
      { jWaiting with
        status := .permanently_failed, completedAt := some 0, failedAttempts := 3 }
    posts := [], reports := [] }

/-- A post document occupying the key `("https://a", none)`, as a previous
commentWorker run would have left it. -/
def dupDoc : PostDoc :=
  { postUrl := "https://a", userId := none, content := "x", reactions := 1
    comments := 0, isCommented := false, commentedText := none
    jobId := some "j0" }

/-- Store already holding `dupDoc`. -/
def stDup : StoreState :=
  { job := some jWaiting, posts := [dupDoc], reports := [] }

/-- commentWorker environment: everything succeeds except the per-item act
step, which always fails. -/
def envAllActFail : CWEnv :=
  { now := 0, hasValidCookies := true, liAtPresent := true, loginOk := true
    scrapedKeyword := [pA, pB], scrapedFeed := [], commentOk := fun _ => false
    aiComment := fun _ => "c" }

/-- commentWorker environment that fails before the pipeline starts. -/
def envNoCookies : CWEnv :=
  { envAllActFail with hasValidCookies := false, now := 60000 }

/-- commentWorker environment that fails right after the browser launch
(cookie list without a `li_at` entry). -/
def envNoLiAt : CWEnv :=
  { envAllActFail with liAtPresent := false }

/-- Refinement-worker environment whose cookie file is missing, so the
pipeline throws shortly after the browser launch. -/
def envRwBadCookies : RWEnv :=
  { now := 0, pageSetupOk := true, cookieFileExists := false, liAtInFile := true
    loginOk := true, scraped := [], commentOk := fun _ => false }

/-- Refinement-worker environment in which the whole pipeline succeeds. -/
def envRwGood : RWEnv :=
  { envRwBadCookies with cookieFileExists := true }

/-- part_005 environment whose session validation fails after launch. -/
def envLwBadLogin : LWEnv :=
  { now := 0, launchOk := true, loginOk := false }

/-! ## Theorems -/

/-! ### Store helper lemmas -/

@[simp]
theorem updateJob_job (st : StoreState) (f : JobRecord → JobRecord) :
    (updateJob st f).job = st.job.map f := rfl

@[simp]
theorem updateJob_posts (st : StoreState) (f : JobRecord → JobRecord) :
    (updateJob st f).posts = st.posts := rfl

@[simp]
theorem updateJob_reports (st : StoreState) (f : JobRecord → JobRecord) :
    (updateJob st f).reports = st.reports := rfl

@[simp]
theorem addReport_job (st : StoreState) (r : ReportDoc) :
    (addReport st r).job = st.job := rfl

@[simp]
theorem addReport_posts (st : StoreState) (r : ReportDoc) :
    (addReport st r).posts = st.posts := rfl

@[simp]
theorem addReport_reports (st : StoreState) (r : ReportDoc) :
    (addReport st r).reports = st.reports ++ [r] := rfl

/-! ### Stable-sort theory for `jsSortDesc` -/

theorem jsSortDesc_perm (l : List ScrapedPost) : (jsSortDesc l).Perm l :=
  List.perm_insertionSort postGE l

theorem jsSortDesc_sorted (l : List ScrapedPost) : (jsSortDesc l).Sorted postGE :=
  List.sorted_insertionSort postGE l

theorem jsSortDesc_eq_of_sorted {l : List ScrapedPost} (h : l.Sorted postGE) :
    jsSortDesc l = l :=
  h.insertionSort_eq

theorem jsSortDesc_idem (l : List ScrapedPost) : jsSortDesc (jsSortDesc l) = jsSortDesc l :=
  jsSortDesc_eq_of_sorted (jsSortDesc_sorted l)

/-- Inserting `a` with `orderedInsert postGE` walks past only strictly
higher-scored elements, so the subsequence of elements with any fixed score is
extended at its front exactly when `a` has that score. -/
theorem filter_score_orderedInsert (a : ScrapedPost) (s : Nat) :
    ∀ m : List ScrapedPost,
      (m.orderedInsert postGE a).filter (fun x => engagementScore x == s) =
        if engagementScore a == s then
          a :: m.filter (fun x => engagementScore x == s)
        else m.filter (fun x => engagementScore x == s) := by
  intro m
  induction m with
  | nil => simp only [List.orderedInsert, List.filter_cons, List.filter_nil]
  | cons b m ih =>
    by_cases hab : postGE a b
    · rw [List.orderedInsert, if_pos hab]
      simp only [List.filter_cons]
    · rw [List.orderedInsert, if_neg hab]
      have honly : (engagementScore a == s) = true →
          (engagementScore b == s) = true → False := by
        intro ha hb
        exact hab (Nat.le_of_eq ((beq_iff_eq.mp hb).trans (beq_iff_eq.mp ha).symm))
      cases ha : (engagementScore a == s) <;> cases hb : (engagementScore b == s)
      · simp [List.filter_cons, ih, ha, hb]
      · simp [List.filter_cons, ih, ha, hb]
      · simp [List.filter_cons, ih, ha, hb]
      · exact (honly ha hb).elim

/-- Stability of the embedded JS sort: for every score, the subsequence of
elements carrying that score is unchanged. -/
theorem jsSortDesc_stable (s : Nat) (l : List ScrapedPost) :
    (jsSortDesc l).filter (fun x => engagementScore x == s) =
      l.filter (fun x => engagementScore x == s) := by
  induction l with
  | nil => rfl
  | cons a l ih =>
    simp only [jsSortDesc, List.insertionSort] at ih ⊢
    rw [filter_score_orderedInsert, List.filter_cons]
    cases h : (engagementScore a == s) <;> simp [h, ih]

/-- A sorted permutation with the same per-score subsequences is unique: the
stable descending ranking is fully characterised by these three properties. -/
theorem stable_sorted_unique :
    ∀ l₁ l₂ : List ScrapedPost, l₁.Perm l₂ → l₁.Sorted postGE → l₂.Sorted postGE →
      (∀ s : Nat, l₁.filter (fun x => engagementScore x == s) =
          l₂.filter (fun x => engagementScore x == s)) →
      l₁ = l₂ := by
  intro l₁
  induction l₁ with
  | nil =>
    intro l₂ hp _ _ _
    exact hp.nil_eq
  | cons a t₁ ih =>
    intro l₂ hp h₁ h₂ hf
    cases l₂ with
    | nil => simpa using hp.eq_nil
    | cons b t₂ =>
      have hab : a = b := by
        have h := hf (engagementScore a)
        rw [List.filter_cons, List.filter_cons] at h
        cases hb : (engagementScore b == engagementScore a) with
        | true =>
          simp only [beq_self_eq_true, if_true, hb] at h
          exact (List.cons_eq_cons.mp h).1
        | false =>
          exfalso
          have hba : engagementScore b ≤ engagementScore a := by
            have hbmem : b ∈ a :: t₁ := hp.symm.subset (List.mem_cons_self b t₂)
            rcases List.mem_cons.mp hbmem with rfl | hbt
            · exact Nat.le_refl _
            · exact List.rel_of_sorted_cons h₁ b hbt
          have hab2 : engagementScore a ≤ engagementScore b := by
            have hamem : a ∈ b :: t₂ := hp.subset (List.mem_cons_self a t₁)
            rcases List.mem_cons.mp hamem with rfl | hat
            · exact Nat.le_refl _
            · exact List.rel_of_sorted_cons h₂ a hat
          have heq : engagementScore b = engagementScore a :=
            Nat.le_antisymm hba hab2
          simp [heq] at hb
      subst hab
      have hp' : t₁.Perm t₂ := hp.cons_inv
      have hf' : ∀ s : Nat, t₁.filter (fun x => engagementScore x == s) =
          t₂.filter (fun x => engagementScore x == s) := by
        intro s
        have h := hf s
        rw [List.filter_cons, List.filter_cons] at h
        cases hs : (engagementScore a == s) <;> simp [hs] at h <;> exact h
      exact congrArg (List.cons a) (ih t₂ hp' h₁.of_cons h₂.of_cons hf')

/-! ### Survivor-filter lemmas -/

theorem passes_of_mem_survivors {posts : List ScrapedPost} {o : FilterOptions}
    {x : ScrapedPost} (hx : x ∈ survivors posts o) : passes o x = true := by
  unfold survivors at hx
  cases he : o.excludeJobPosts
  · simp only [he, Bool.false_eq_true, if_false] at hx
    rw [List.mem_filter] at hx
    obtain ⟨hx1, h3⟩ := hx
    rw [List.mem_filter] at hx1
    obtain ⟨_, h1⟩ := hx1
    simp [passes, he, Bool.and_eq_true]
    exact ⟨by simpa using h1, by simpa using h3⟩
  · simp only [he, if_true] at hx
    rw [List.mem_filter] at hx
    obtain ⟨hx1, h3⟩ := hx
    rw [List.mem_filter] at hx1
    obtain ⟨hx2, h2⟩ := hx1
    rw [List.mem_filter] at hx2
    obtain ⟨_, h1⟩ := hx2
    simp [passes, he, Bool.and_eq_true]
    exact ⟨⟨by simpa using h1, by simpa using h2⟩, by simpa using h3⟩

theorem survivors_eq_self {l : List ScrapedPost} {o : FilterOptions}
    (h : ∀ x ∈ l, passes o x = true) : survivors l o = l := by
  have hp : ∀ x ∈ l, (o.minReactions ≤ x.reactions ∧
      (if o.excludeJobPosts then !(isExcludedPost x.text) else true) = true) ∧
      30 ≤ x.text.length := by
    intro x hx
    simpa [passes, Bool.and_eq_true] using h x hx
  have h1 : l.filter (fun p => decide (o.minReactions ≤ p.reactions)) = l :=
    List.filter_eq_self.mpr fun x hx => by simpa using (hp x hx).1.1
  unfold survivors
  cases he : o.excludeJobPosts
  · simp only [he, Bool.false_eq_true, if_false]
    rw [h1]
    exact List.filter_eq_self.mpr fun x hx => by simpa using (hp x hx).2
  · simp only [he, if_true]
    have h2 : l.filter (fun p => !(isExcludedPost p.text)) = l :=
      List.filter_eq_self.mpr fun x hx => by
        have h' := (hp x hx).1.2
        rw [he] at h'
        simpa using h'
    rw [h1, h2]
    exact List.filter_eq_self.mpr fun x hx => by simpa using (hp x hx).2

theorem filterPosts_idem (posts : List ScrapedPost) (o : FilterOptions) :
    filterPosts (filterPosts posts o) o = filterPosts posts o := by
  unfold filterPosts
  have hmem : ∀ x ∈ jsSortDesc (survivors posts o), passes o x = true := fun x hx =>
    passes_of_mem_survivors ((jsSortDesc_perm _).subset hx)
  rw [survivors_eq_self hmem, jsSortDesc_idem]

/-! ### Claim C8 -/

/-- C8 (counterexample): `rankPosts` sorts its argument array in place
(`posts.sort(...)`), so the Filter/RankEngine does modify an input list it is
given: after `rankPosts([pA, pB])` the array of the caller is `[pB, pA]`. -/
theorem rankPosts_mutates_input : rankPostsInputAfter [pA, pB] ≠ [pA, pB] := by
  decide

/-- C8 (amended): `filterPosts` never modifies its input (it works on the
spread copy `[...posts]`) and the filter-then-rank pipeline is idempotent
(`filterPosts` applied to its own output is the identity, and so is re-running
`rankPosts`); `rankPosts`, however, sorts the array it is handed in place, so
only `filterPosts` leaves its input unmodified. -/
theorem filterRank_pure_and_idempotent (posts : List ScrapedPost) (o : FilterOptions) :
    filterPostsInputAfter posts o = posts ∧
    filterPosts (filterPosts posts o) o = filterPosts posts o ∧
    rankPosts (rankPosts posts) = rankPosts posts :=
  ⟨rfl, filterPosts_idem posts o, jsSortDesc_idem posts⟩

/-! ### Claim C9 -/

/-- C9: the list selected for action is exactly the top `maxComments` of the
surviving candidates under the stable descending ranking by
`reactions + comments`: the ranked list is a permutation of the survivors,
sorted descending by score, with every fixed-score subsequence kept in
discovery order; the selection is its `maxComments`-prefix, every selected
candidate scores at least as high as every unselected one, and any list with
these ordering properties is equal to the ranked list (uniqueness of the
stable ranking). -/
theorem filterRank_selects_topN (posts : List ScrapedPost) (o : FilterOptions)
    (maxComments : Nat) :
    (filterPosts posts o).Perm (survivors posts o) ∧
    (filterPosts posts o).Sorted postGE ∧
    (∀ s : Nat, (filterPosts posts o).filter (fun p => engagementScore p == s) =
        (survivors posts o).filter (fun p => engagementScore p == s)) ∧
    selectedForAction posts o maxComments = (filterPosts posts o).take maxComments ∧
    (selectedForAction posts o maxComments).length =
      min maxComments (filterPosts posts o).length ∧
    (∀ x ∈ selectedForAction posts o maxComments,
      ∀ y ∈ (filterPosts posts o).drop maxComments,
        engagementScore y ≤ engagementScore x) ∧
    (∀ l2 : List ScrapedPost, l2.Perm (survivors posts o) → l2.Sorted postGE →
      (∀ s : Nat, l2.filter (fun p => engagementScore p == s) =
          (survivors posts o).filter (fun p => engagementScore p == s)) →
      l2 = filterPosts posts o) := by
  refine ⟨jsSortDesc_perm _, jsSortDesc_sorted _, fun s => jsSortDesc_stable s _, rfl,
    List.length_take _ _, ?_, ?_⟩
  · intro x hx y hy
    exact (jsSortDesc_sorted (survivors posts o)).rel_of_mem_take_of_mem_drop hx hy
  · intro l2 hperm hsort hstab
    refine stable_sorted_unique l2 (filterPosts posts o)
      (hperm.trans (jsSortDesc_perm _).symm) hsort (jsSortDesc_sorted _) ?_
    intro s
    rw [hstab s]
    exact (jsSortDesc_stable s (survivors posts o)).symm

/-- C9 (witness): the characterisation evaluated at a concrete three-post
list in which `pA` and `pC` tie on score and `pB` outranks both. -/
theorem filterRank_selects_topN_witness :
    (filterPosts [pA, pC, pB] ⟨5, true⟩).Perm (survivors [pA, pC, pB] ⟨5, true⟩) ∧
    (filterPosts [pA, pC, pB] ⟨5, true⟩).Sorted postGE ∧
    (∀ s : Nat, (filterPosts [pA, pC, pB] ⟨5, true⟩).filter
        (fun p => engagementScore p == s) =
        (survivors [pA, pC, pB] ⟨5, true⟩).filter (fun p => engagementScore p == s)) ∧
    selectedForAction [pA, pC, pB] ⟨5, true⟩ 2 =
      (filterPosts [pA, pC, pB] ⟨5, true⟩).take 2 ∧
    (selectedForAction [pA, pC, pB] ⟨5, true⟩ 2).length =
      min 2 (filterPosts [pA, pC, pB] ⟨5, true⟩).length ∧
    (∀ x ∈ selectedForAction [pA, pC, pB] ⟨5, true⟩ 2,
      ∀ y ∈ (filterPosts [pA, pC, pB] ⟨5, true⟩).drop 2,
        engagementScore y ≤ engagementScore x) ∧
    (∀ l2 : List ScrapedPost, l2.Perm (survivors [pA, pC, pB] ⟨5, true⟩) →
      l2.Sorted postGE →
      (∀ s : Nat, l2.filter (fun p => engagementScore p == s) =
          (survivors [pA, pC, pB] ⟨5, true⟩).filter (fun p => engagementScore p == s)) →
      l2 = filterPosts [pA, pC, pB] ⟨5, true⟩) :=
  filterRank_selects_topN [pA, pC, pB] ⟨5, true⟩ 2

/-! ### Claim C7 -/

/-- C7: on a throttling signal (message containing `429` or
`Too Many Requests`), `handleRateLimitError` with its default retry budget of
3 waits `min(30000 * 2 ^ attempt, 90000)` ms before each recovery reload (the
coded waits 30 s / 60 s / 90 s realise exactly this base-30 s, cap-90 s
schedule), retries at most 3 times, raises a terminal rate-limit error when
every reload fails, and reports recovery only when some reload within the
budget succeeded. -/
theorem rateLimit_backoff_spec (msg : String) (reloadOk : Nat → Bool)
    (h : isRateLimitMsg msg = true) :
    (handleRateLimitError msg reloadOk 3).waits.length ≤ 3 ∧
    (handleRateLimitError msg reloadOk 3).waits =
      (List.range (handleRateLimitError msg reloadOk 3).waits.length).map
        (fun a => min (30000 * 2 ^ a) 90000) ∧
    ((∀ a, a < 3 → reloadOk a = false) →
      (handleRateLimitError msg reloadOk 3).terminalError =
          some "Rate limit recovery failed" ∧
        (handleRateLimitError msg reloadOk 3).waits.length = 3) ∧
    ((handleRateLimitError msg reloadOk 3).recovered = true →
      reloadOk 0 = true ∨ reloadOk 1 = true ∨ reloadOk 2 = true) := by
  cases h0 : reloadOk 0 <;> cases h1 : reloadOk 1 <;> cases h2 : reloadOk 2 <;>
    simp [handleRateLimitError, h, hrleGo, h0, h1, h2, List.range_succ] <;>
    first
      | exact ⟨0, by omega, h0⟩
      | exact ⟨1, by omega, h1⟩
      | exact ⟨2, by omega, h2⟩

/-- C7 (witness): the schedule evaluated with an explicit 429 message and
every reload failing. -/
theorem rateLimit_backoff_spec_witness :
    (handleRateLimitError "HTTP 429" (fun _ => false) 3).waits.length ≤ 3 ∧
    (handleRateLimitError "HTTP 429" (fun _ => false) 3).waits =
      (List.range (handleRateLimitError "HTTP 429" (fun _ => false) 3).waits.length).map
        (fun a => min (30000 * 2 ^ a) 90000) ∧
    ((∀ a, a < 3 → (fun _ : Nat => false) a = false) →
      (handleRateLimitError "HTTP 429" (fun _ => false) 3).terminalError =
          some "Rate limit recovery failed" ∧
        (handleRateLimitError "HTTP 429" (fun _ => false) 3).waits.length = 3) ∧
    ((handleRateLimitError "HTTP 429" (fun _ => false) 3).recovered = true →
      (fun _ : Nat => false) 0 = true ∨ (fun _ : Nat => false) 1 = true ∨
        (fun _ : Nat => false) 2 = true) :=
  rateLimit_backoff_spec "HTTP 429" (fun _ => false) (by decide)

/-! ### Claim C10 -/

/-- C10 (counterexample): invoked exactly at the reset instant of the minute window
with the minute cap reached, `checkRateLimit` returns a wait of 0 — not a
positive wait — and increments nothing, so a 0-returning call need not
increment the counters. -/
theorem checkRateLimit_zero_wait_at_reset_instant :
    MAX_REQUESTS_PER_MINUTE ≤
        (RequestCount.mk ⟨5, 0⟩ ⟨0, 3600000⟩).minute.count ∧
    (checkRateLimit 0 (RequestCount.mk ⟨5, 0⟩ ⟨0, 3600000⟩)).1 = 0 ∧
    ¬ 0 < (checkRateLimit 0 (RequestCount.mk ⟨5, 0⟩ ⟨0, 3600000⟩)).1 ∧
    (checkRateLimit 0 (RequestCount.mk ⟨5, 0⟩ ⟨0, 3600000⟩)).2 =
      RequestCount.mk ⟨5, 0⟩ ⟨0, 3600000⟩ := by
  decide

theorem applyResets_minute_count_le (now : Int) (rc : RequestCount) :
    (applyResets now rc).minute.count ≤ rc.minute.count := by
  unfold applyResets
  by_cases hr : rc.minute.resetTime < now <;> simp [hr]

theorem applyResets_hour_count_le (now : Int) (rc : RequestCount) :
    (applyResets now rc).hour.count ≤ rc.hour.count := by
  unfold applyResets
  by_cases hr : rc.hour.resetTime < now <;> simp [hr]

theorem applyResets_now_le_minute (now : Int) (rc : RequestCount)
    (h : 1 ≤ (applyResets now rc).minute.count) :
    now ≤ (applyResets now rc).minute.resetTime := by
  unfold applyResets at h ⊢
  by_cases hr : rc.minute.resetTime < now
  · simp only [if_pos hr] at h
    omega
  · simp only [if_neg hr] at h ⊢
    omega

theorem applyResets_now_le_hour (now : Int) (rc : RequestCount)
    (h : 1 ≤ (applyResets now rc).hour.count) :
    now ≤ (applyResets now rc).hour.resetTime := by
  unfold applyResets at h ⊢
  by_cases hr : rc.hour.resetTime < now
  · simp only [if_pos hr] at h
    omega
  · simp only [if_neg hr] at h ⊢
    omega

/-- C10 (amended): starting from counters within the caps, `checkRateLimit`
keeps the per-minute counter at most 5 and the per-hour counter at most 50;
the returned wait is non-negative (zero exactly when invoked at the exact
window reset instant); a call that finds a cap reached (after window resets) leaves
the reset-applied counters unchanged; and a call that finds both caps clear
returns 0 and increments both counters by exactly one. -/
theorem checkRateLimit_spec (now : Int) (rc : RequestCount)
    (hm : rc.minute.count ≤ MAX_REQUESTS_PER_MINUTE)
    (hh : rc.hour.count ≤ MAX_REQUESTS_PER_HOUR) :
    0 ≤ (checkRateLimit now rc).1 ∧
    (checkRateLimit now rc).2.minute.count ≤ MAX_REQUESTS_PER_MINUTE ∧
    (checkRateLimit now rc).2.hour.count ≤ MAX_REQUESTS_PER_HOUR ∧
    ((MAX_REQUESTS_PER_MINUTE ≤ (applyResets now rc).minute.count ∨
        MAX_REQUESTS_PER_HOUR ≤ (applyResets now rc).hour.count) →
      (checkRateLimit now rc).2 = applyResets now rc) ∧
    ((applyResets now rc).minute.count < MAX_REQUESTS_PER_MINUTE →
      (applyResets now rc).hour.count < MAX_REQUESTS_PER_HOUR →
      (checkRateLimit now rc).1 = 0 ∧
        (checkRateLimit now rc).2.minute.count =
          (applyResets now rc).minute.count + 1 ∧
        (checkRateLimit now rc).2.hour.count =
          (applyResets now rc).hour.count + 1) := by
  have e5 : MAX_REQUESTS_PER_MINUTE = 5 := rfl
  have e50 : MAX_REQUESTS_PER_HOUR = 50 := rfl
  have hmc := applyResets_minute_count_le now rc
  have hhc := applyResets_hour_count_le now rc
  simp only [checkRateLimit]
  by_cases h1 : MAX_REQUESTS_PER_MINUTE ≤ (applyResets now rc).minute.count
  · have hle := applyResets_now_le_minute now rc (by omega)
    simp only [if_pos h1]
    exact ⟨by omega, by omega, by omega, fun _ => trivial, fun hcm _ => by omega⟩
  · by_cases h2 : MAX_REQUESTS_PER_HOUR ≤ (applyResets now rc).hour.count
    · have hle := applyResets_now_le_hour now rc (by omega)
      simp only [if_neg h1, if_pos h2]
      exact ⟨by omega, by omega, by omega, fun _ => trivial, fun _ hch => by omega⟩
    · simp only [if_neg h1, if_neg h2]
      refine ⟨le_refl 0, by omega, by omega, ?_, fun _ _ => ⟨trivial, trivial, trivial⟩⟩
      intro hc
      cases hc with
      | inl hcm => exact (h1 hcm).elim
      | inr hch => exact (h2 hch).elim

/-- C10 (witness): the amended specification applied to a fresh tracker. -/
theorem checkRateLimit_spec_witness :
    0 ≤ (checkRateLimit 0 (RequestCount.mk ⟨0, 60000⟩ ⟨0, 3600000⟩)).1 ∧
    (checkRateLimit 0 (RequestCount.mk ⟨0, 60000⟩ ⟨0, 3600000⟩)).2.minute.count ≤
      MAX_REQUESTS_PER_MINUTE ∧
    (checkRateLimit 0 (RequestCount.mk ⟨0, 60000⟩ ⟨0, 3600000⟩)).2.hour.count ≤
      MAX_REQUESTS_PER_HOUR ∧
    ((MAX_REQUESTS_PER_MINUTE ≤
        (applyResets 0 (RequestCount.mk ⟨0, 60000⟩ ⟨0, 3600000⟩)).minute.count ∨
      MAX_REQUESTS_PER_HOUR ≤
        (applyResets 0 (RequestCount.mk ⟨0, 60000⟩ ⟨0, 3600000⟩)).hour.count) →
      (checkRateLimit 0 (RequestCount.mk ⟨0, 60000⟩ ⟨0, 3600000⟩)).2 =
        applyResets 0 (RequestCount.mk ⟨0, 60000⟩ ⟨0, 3600000⟩)) ∧
    ((applyResets 0 (RequestCount.mk ⟨0, 60000⟩ ⟨0, 3600000⟩)).minute.count <
        MAX_REQUESTS_PER_MINUTE →
      (applyResets 0 (RequestCount.mk ⟨0, 60000⟩ ⟨0, 3600000⟩)).hour.count <
        MAX_REQUESTS_PER_HOUR →
      (checkRateLimit 0 (RequestCount.mk ⟨0, 60000⟩ ⟨0, 3600000⟩)).1 = 0 ∧
        (checkRateLimit 0 (RequestCount.mk ⟨0, 60000⟩ ⟨0, 3600000⟩)).2.minute.count =
          (applyResets 0 (RequestCount.mk ⟨0, 60000⟩ ⟨0, 3600000⟩)).minute.count + 1 ∧
        (checkRateLimit 0 (RequestCount.mk ⟨0, 60000⟩ ⟨0, 3600000⟩)).2.hour.count =
          (applyResets 0 (RequestCount.mk ⟨0, 60000⟩ ⟨0, 3600000⟩)).hour.count + 1) :=
  checkRateLimit_spec 0 (RequestCount.mk ⟨0, 60000⟩ ⟨0, 3600000⟩) (by decide) (by decide)

/-! ### Handler helper lemmas -/

theorem cwActLoop_all_fail (env : CWEnv) :
    ∀ (sel : List ScrapedPost) (posts : List PostDoc) (c f : Nat),
      (∀ p ∈ sel, env.commentOk p.postUrl = false) →
      sel.foldl (cwActStep env) (posts, c, f) = (posts, c, f + sel.length)
  | [], posts, c, f, _ => by simp
  | p :: ps, posts, c, f, h => by
    have hp := h p (List.mem_cons_self p ps)
    have ih := cwActLoop_all_fail env ps posts c (f + 1)
      (fun q hq => h q (List.mem_cons_of_mem p hq))
    simp only [List.foldl_cons]
    have hstep : cwActStep env (posts, c, f) p = (posts, c, f + 1) := by
      simp [cwActStep, hp]
    rw [hstep, ih]
    have harith : f + 1 + ps.length = f + (p :: ps).length := by
      simp [List.length_cons]
      omega
    rw [harith]

theorem hasKey_append (posts more : List PostDoc) (url : String) (uid : Option String) :
    hasKey (posts ++ more) url uid = (hasKey posts url uid || hasKey more url uid) := by
  simp [hasKey, List.any_append]

theorem hasKey_eq_false_iff {posts : List PostDoc} {url : String} {uid : Option String} :
    hasKey posts url uid = false ↔
      ∀ d ∈ posts, ¬(d.postUrl = url ∧ d.userId = uid) := by
  simp [hasKey, List.any_eq_false, not_and]

theorem insertManyUnordered_append_struct (docs : List PostDoc) :
    ∀ store : List PostDoc, ∃ kept, insertManyUnordered store docs = store ++ kept ∧
      kept.Sublist docs := by
  induction docs with
  | nil => exact fun store => ⟨[], by simp [insertManyUnordered], List.Sublist.refl _⟩
  | cons d ds ih =>
    intro store
    unfold insertManyUnordered at *
    simp only [List.foldl_cons]
    cases hk : hasKey store d.postUrl d.userId
    · simp only [hk, Bool.false_eq_true, if_false]
      obtain ⟨kept, he, hs⟩ := ih (store ++ [d])
      refine ⟨d :: kept, ?_, hs.cons₂ d⟩
      rw [he]
      simp
    · simp only [hk, if_true]
      obtain ⟨kept, he, hs⟩ := ih store
      exact ⟨kept, he, hs.cons d⟩

theorem insertManyUnordered_key_mono (store docs : List PostDoc) (url : String)
    (uid : Option String) (h : hasKey store url uid = true) :
    hasKey (insertManyUnordered store docs) url uid = true := by
  obtain ⟨kept, he, _⟩ := insertManyUnordered_append_struct docs store
  rw [he, hasKey_append, h]
  rfl

theorem insertManyUnordered_unique (docs : List PostDoc) :
    ∀ store : List PostDoc, UniquePosts store →
      UniquePosts (insertManyUnordered store docs) := by
  induction docs with
  | nil =>
    intro store h
    simpa [insertManyUnordered] using h
  | cons d ds ih =>
    intro store h
    unfold insertManyUnordered at *
    simp only [List.foldl_cons]
    cases hk : hasKey store d.postUrl d.userId
    · simp only [hk, Bool.false_eq_true, if_false]
      apply ih
      unfold UniquePosts at *
      rw [List.pairwise_append]
      refine ⟨h, List.pairwise_singleton _ _, ?_⟩
      intro a ha b hb
      rw [List.mem_singleton] at hb
      subst hb
      exact hasKey_eq_false_iff.mp hk a ha
    · simp only [hk, if_true]
      exact ih store h

theorem insertManyUnordered_hasKey (docs : List PostDoc) :
    ∀ (store : List PostDoc) (d : PostDoc), d ∈ docs →
      hasKey (insertManyUnordered store docs) d.postUrl d.userId = true := by
  induction docs with
  | nil =>
    intro _ _ hd
    cases hd
  | cons e ds ih =>
    intro store d hd
    unfold insertManyUnordered at *
    simp only [List.foldl_cons]
    rcases List.mem_cons.mp hd with rfl | hd2
    · cases hk : hasKey store d.postUrl d.userId
      · simp only [hk, Bool.false_eq_true, if_false]
        have hself : hasKey (store ++ [d]) d.postUrl d.userId = true := by
          rw [hasKey_append]
          have : hasKey [d] d.postUrl d.userId = true := by simp [hasKey]
          rw [this]
          simp
        exact insertManyUnordered_key_mono _ ds _ _ hself
      · simp only [hk, if_true]
        exact insertManyUnordered_key_mono _ ds _ _ hk
    · cases hk : hasKey store e.postUrl e.userId
      · simp only [hk, Bool.false_eq_true, if_false]
        exact ih _ _ hd2
      · simp only [hk, if_true]
        exact ih _ _ hd2

/-! ### Claim C1 -/

/-- C1: if the persisted status of the dispatched job is already `active`,
both worker handlers return `{ success: false }` with the
"already processing" message, before any mutation: the store (job record,
posts, session reports) is returned unchanged, no status is written and no
browser is launched. -/
theorem activeGuard_noMutation (cenv : CWEnv) (renv : RWEnv) (jobId userId : String)
    (maxComments : Nat) (options : FilterOptions) (st : StoreState) (j : JobRecord)
    (hj : st.job = some j) (hs : j.status = .active) :
    commentWorkerHandler cenv jobId userId maxComments options st =
      { store := st, statusWrites := [], browserLaunched := false
        browserClosed := false
        outcome := .ret false "Job already being processed" } ∧
    refinementHandler renv jobId userId maxComments st =
      { store := st, statusWrites := [], browserLaunched := false
        browserClosed := false
        outcome := .ret false "Job already being processed" } := by
  constructor
  · unfold commentWorkerHandler
    rw [hj]
    simp [hs]
  · unfold refinementHandler
    rw [hj]
    simp [hs]

/-- C1 (witness): the guard evaluated on a concrete `active` job. -/
theorem activeGuard_noMutation_witness :
    commentWorkerHandler envAllActFail "j1" "u1" 5 {} stActive =
      { store := stActive, statusWrites := [], browserLaunched := false
        browserClosed := false
        outcome := .ret false "Job already being processed" } ∧
    refinementHandler envRwGood "j1" "u1" 5 stActive =
      { store := stActive, statusWrites := [], browserLaunched := false
        browserClosed := false
        outcome := .ret false "Job already being processed" } :=
  activeGuard_noMutation envAllActFail envRwGood "j1" "u1" 5 {} stActive
    { jWaiting with status := .active } rfl rfl

/-! ### Claim C2 -/

/-- C2 (counterexample): a job already in the terminal `permanently_failed`
state passes every entry guard of the refinement worker when the queue
redelivers it: the handler sets it `active` again, launches the browser and
runs the pipeline (here failing on cookies and even overwriting the terminal
status with `failed`), so such a job IS re-attempted on redelivery. -/
theorem permanentlyFailed_is_reattempted :
    stPermFailed.job.map (·.status) = some .permanently_failed ∧
    JobStatus.active ∈
      (refinementHandler envRwBadCookies "j1" "u1" 5 stPermFailed).statusWrites ∧
    (refinementHandler envRwBadCookies "j1" "u1" 5 stPermFailed).browserLaunched =
      true ∧
    (refinementHandler envRwBadCookies "j1" "u1" 5 stPermFailed).store.job.map
      (·.status) = some .failed := by
  decide

theorem rwRun_thrown (env : RWEnv) (jobId userId : String) (maxComments : Nat)
    (st : StoreState) (j : JobRecord) (hj : st.job = some j) :
    ∀ e, (rwRun env jobId userId maxComments st (some j)).outcome = .thrown e →
      (rwRun env jobId userId maxComments st (some j)).store.job.map
          (·.failedAttempts) = some (j.failedAttempts + 1) ∧
        (rwRun env jobId userId maxComments st (some j)).store.job.map
          (·.status) = some .failed := by
  intro e he
  unfold rwRun rwCatch at he ⊢
  cases hps : env.pageSetupOk <;> cases hcf : env.cookieFileExists <;>
    cases hli : env.liAtInFile <;> cases hlo : env.loginOk <;>
    simp_all [hj]

/-- C2 (amended): when the refinement worker is re-dispatched a job whose
status is `failed` with `failedAttempts` at the bound 3, it transitions the
job to `permanently_failed` with the terminal error, runs no pipeline work on
that invocation (no `active` write, no browser launch) and returns
`{ success: false }`; and every run that ends by re-raising a pipeline error
records `failedAttempts` incremented by exactly one.  (The bound is
therefore eventually reached; but a job already in `permanently_failed` is
NOT protected by the guards if redelivered — see the counterexample.) -/
theorem failedAttempts_guard_spec (env : RWEnv) (jobId userId : String)
    (maxComments : Nat) (st : StoreState) (j : JobRecord) (hj : st.job = some j) :
    ((j.status = .failed ∧ 3 ≤ j.failedAttempts) →
      refinementHandler env jobId userId maxComments st =
        { store := updateJob st (fun jj =>
            { jj with status := .permanently_failed
                      error := some "Job failed too many times"
                      completedAt := some env.now })
          statusWrites := [.permanently_failed], browserLaunched := false
          browserClosed := false
          outcome := .ret false "Too many failed attempts" }) ∧
    (∀ e, (refinementHandler env jobId userId maxComments st).outcome = .thrown e →
      (refinementHandler env jobId userId maxComments st).store.job.map
          (·.failedAttempts) = some (j.failedAttempts + 1) ∧
        (refinementHandler env jobId userId maxComments st).store.job.map
          (·.status) = some .failed) := by
  constructor
  · rintro ⟨hsf, hfa⟩
    unfold refinementHandler
    rw [hj]
    simp [hsf, hfa]
  · intro e he
    unfold refinementHandler at he ⊢
    rw [hj] at he ⊢
    by_cases h1 : j.status = .active
    · simp [h1] at he
    · by_cases h2 : j.status = .completed ∧ completedRecently env.now j = true
      · simp [h1, h2] at he
      · by_cases h3 : j.status = .failed ∧ 3 ≤ j.failedAttempts
        · simp [h1, h2, h3] at he
        · simp only [h1, h2, h3, if_neg, if_false] at he ⊢
          exact rwRun_thrown env jobId userId maxComments st j hj e he

/-- C2 (witness): the guard evaluated on a concrete job that failed three
times. -/
theorem failedAttempts_guard_spec_witness :
    ((jFailed3.status = .failed ∧ 3 ≤ jFailed3.failedAttempts) →
      refinementHandler envRwGood "j1" "u1" 5 stFailed3 =
        { store := updateJob stFailed3 (fun jj =>
            { jj with status := .permanently_failed
                      error := some "Job failed too many times"
                      completedAt := some envRwGood.now })
          statusWrites := [.permanently_failed], browserLaunched := false
          browserClosed := false
          outcome := .ret false "Too many failed attempts" }) ∧
    (∀ e, (refinementHandler envRwGood "j1" "u1" 5 stFailed3).outcome = .thrown e →
      (refinementHandler envRwGood "j1" "u1" 5 stFailed3).store.job.map
          (·.failedAttempts) = some (jFailed3.failedAttempts + 1) ∧
        (refinementHandler envRwGood "j1" "u1" 5 stFailed3).store.job.map
          (·.status) = some .failed) :=
  failedAttempts_guard_spec envRwGood "j1" "u1" 5 stFailed3 jFailed3 rfl

/-! ### Claim C3 -/

/-- C3 (code bug): in the commentWorker handler the cleanup code of the catch
block reads the name `browser`, but that name is declared in the try-block
scope which does not enclose the catch; the resulting reference error is
swallowed by the inner try, so on a failure after the browser launch (here:
cookie list without a `li_at` entry) the handler re-raises WITHOUT closing the
browser.  The part_005 variant (`LinkedInWorker.processJob`), which declares
`browser` outside the try and closes it in a `finally`, does close it on the
same kind of failure. -/
theorem commentWorker_browser_leak :
    cwTryBlockScope.contains "browser" = true ∧
    cwBrowserVisibleInCatch = false ∧
    (commentWorkerHandler envNoLiAt "j1" "u1" 5 {} stWaiting).browserLaunched =
      true ∧
    (commentWorkerHandler envNoLiAt "j1" "u1" 5 {} stWaiting).outcome =
      .thrown "Missing li_at cookie" ∧
    (commentWorkerHandler envNoLiAt "j1" "u1" 5 {} stWaiting).browserClosed =
      false ∧
    (linkedInWorkerProcessJob envLwBadLogin stWaiting).browserLaunched = true ∧
    (linkedInWorkerProcessJob envLwBadLogin stWaiting).browserClosed = true := by
  decide

/-! ### Claim C4 -/

/-- C4 (counterexample): the commentWorker handler has NO cooldown guard: on
a job completed 60 seconds earlier (well inside the 5-minute window) it does
not return `{ success: false }` — it reprocesses the job, writes `active`,
and appends a second Session Report. -/
theorem cooldown_missing_in_commentWorker :
    stCooled.job.map (·.status) = some .completed ∧
    (stCooled.job.map (completedRecently envNoCookies.now)) = some true ∧
    (commentWorkerHandler envNoCookies "j1" "u1" 5 {} stCooled).outcome =
      .thrown "User does not have valid LinkedIn cookies" ∧
    JobStatus.active ∈
      (commentWorkerHandler envNoCookies "j1" "u1" 5 {} stCooled).statusWrites ∧
    (commentWorkerHandler envNoCookies "j1" "u1" 5 {} stCooled).store.reports.length =
      stCooled.reports.length + 1 := by
  decide

/-- C4 (amended): the cooldown guard exists only in the refinement worker:
there, re-dispatching a job completed less than 5 minutes ago returns
`{ success: false }` with the "completed recently" reason and the whole store
unchanged — no `active` write, no browser, no duplicate Session Report.  The
commentWorker handler lacks this guard and reprocesses such a job (see the
counterexample). -/
theorem cooldownGuard_spec (env : RWEnv) (jobId userId : String)
    (maxComments : Nat) (st : StoreState) (j : JobRecord) (t : Int)
    (hj : st.job = some j) (hs : j.status = .completed)
    (hc : j.completedAt = some t) (hw : env.now - t < 300000) :
    refinementHandler env jobId userId maxComments st =
      { store := st, statusWrites := [], browserLaunched := false
        browserClosed := false
        outcome := .ret false "Job completed recently" } := by
  unfold refinementHandler
  rw [hj]
  have hcr : completedRecently env.now j = true := by
    unfold completedRecently
    rw [hc]
    simpa using hw
  simp [hs, hcr]

/-- C4 (witness): the refinement-worker guard on a job completed 60 s ago. -/
theorem cooldownGuard_spec_witness :
    refinementHandler envRwGood "j1" "u1" 5 stCooled =
      { store := stCooled, statusWrites := [], browserLaunched := false
        browserClosed := false
        outcome := .ret false "Job completed recently" } :=
  cooldownGuard_spec envRwGood "j1" "u1" 5 stCooled
    { jWaiting with status := .completed, completedAt := some 0 } 0 rfl rfl rfl
    (by decide)

/-! ### Claim C5 -/

/-- C5 (counterexample): `commentWorker.js` calls `Post.insertMany` with the
default `ordered: true` and no local error handling, so a batch containing an
already-present `(postUrl, userId)` key is aborted at the duplicate — the
later fresh document is never inserted — and the error escalates to the
top-level catch, marking the whole job `failed`. -/
theorem duplicate_aborts_batch_and_fails_job :
    UniquePosts stDup.posts ∧
    (commentWorkerHandler envAllActFail "j1" "u1" 5 {} stDup).outcome =
      .thrown "E11000 duplicate key error" ∧
    (commentWorkerHandler envAllActFail "j1" "u1" 5 {} stDup).store.job.map
      (·.status) = some .failed ∧
    hasKey (commentWorkerHandler envAllActFail "j1" "u1" 5 {} stDup).store.posts
      "https://b" none = false := by
  constructor
  · unfold UniquePosts stDup
    simp
  · decide

/-- C5 (amended): the compound unique index keeps at most one document per
`(postUrl, userId)` key, and the refinement worker inserts with
`ordered: false` plus an 11000 handler: the uniqueness invariant is preserved,
every key of the batch is present afterwards, exactly a subsequence of the
batch is appended (duplicates skipped, the rest of the batch unaffected), and
a job whose guards and session pass always completes even if every insert is
a duplicate.  The commentWorker path, by contrast, aborts the batch and fails
the job on a duplicate (see the counterexample). -/
theorem uniqueIndex_dedup_spec (store docs : List PostDoc) (h : UniquePosts store) :
    UniquePosts (insertManyUnordered store docs) ∧
    (∀ d ∈ docs, hasKey (insertManyUnordered store docs) d.postUrl d.userId = true) ∧
    (∃ kept, insertManyUnordered store docs = store ++ kept ∧ kept.Sublist docs) ∧
    (∀ (env : RWEnv) (jobId userId : String) (maxComments : Nat) (st : StoreState)
        (j : JobRecord), st.job = some j → j.status = .waiting →
      env.pageSetupOk = true → env.cookieFileExists = true → env.liAtInFile = true →
      env.loginOk = true →
      (∃ c t, (refinementHandler env jobId userId maxComments st).outcome = .done c t) ∧
        (refinementHandler env jobId userId maxComments st).store.job.map
          (·.status) = some .completed) := by
  refine ⟨insertManyUnordered_unique docs store h,
    fun d hd => insertManyUnordered_hasKey docs store d hd,
    insertManyUnordered_append_struct docs store, ?_⟩
  intro env jobId userId maxComments st j hj hw h1 h2 h3 h4
  unfold refinementHandler
  rw [hj]
  have g1 : ¬(j.status = .active) := by simp [hw]
  have g2 : ¬(j.status = .completed ∧ completedRecently env.now j = true) := by
    simp [hw]
  have g3 : ¬(j.status = .failed ∧ 3 ≤ j.failedAttempts) := by simp [hw]
  simp only [g1, g2, g3, if_neg, if_false]
  unfold rwRun
  simp only [h1, h2, h3, h4, Bool.not_true, Bool.or_self, Bool.false_or,
    Bool.or_false, Bool.false_eq_true, if_false]
  refine ⟨⟨_, _, rfl⟩, ?_⟩
  simp [hj]

/-- C5 (witness): the dedup specification applied to a store already holding
the first document of the batch. -/
theorem uniqueIndex_dedup_spec_witness :
    UniquePosts (insertManyUnordered [rwPostDoc "j1" "u1" pA]
      [rwPostDoc "j1" "u1" pA, rwPostDoc "j1" "u1" pB]) ∧
    (∀ d ∈ [rwPostDoc "j1" "u1" pA, rwPostDoc "j1" "u1" pB],
      hasKey (insertManyUnordered [rwPostDoc "j1" "u1" pA]
        [rwPostDoc "j1" "u1" pA, rwPostDoc "j1" "u1" pB]) d.postUrl d.userId = true) ∧
    (∃ kept, insertManyUnordered [rwPostDoc "j1" "u1" pA]
        [rwPostDoc "j1" "u1" pA, rwPostDoc "j1" "u1" pB] =
        [rwPostDoc "j1" "u1" pA] ++ kept ∧
      kept.Sublist [rwPostDoc "j1" "u1" pA, rwPostDoc "j1" "u1" pB]) ∧
    (∀ (env : RWEnv) (jobId userId : String) (maxComments : Nat) (st : StoreState)
        (j : JobRecord), st.job = some j → j.status = .waiting →
      env.pageSetupOk = true → env.cookieFileExists = true → env.liAtInFile = true →
      env.loginOk = true →
      (∃ c t, (refinementHandler env jobId userId maxComments st).outcome = .done c t) ∧
        (refinementHandler env jobId userId maxComments st).store.job.map
          (·.status) = some .completed) :=
  uniqueIndex_dedup_spec [rwPostDoc "j1" "u1" pA]
    [rwPostDoc "j1" "u1" pA, rwPostDoc "j1" "u1" pB]
    (by unfold UniquePosts; simp)

/-! ### Claim C6 -/

/-- C6: in a commentWorker run that reaches the act phase, if the act step
fails for every selected candidate, the per-item catch absorbs each failure:
the job still finishes with status `completed`, a result with
`success: true`, `commentedCount = 0` and a failure count equal to the number
of selected candidates, and the Session Report records 0 comments posted and
that same failure count.  A per-item action failure never escalates to job
failure. -/
theorem allItemFailures_job_completes (env : CWEnv) (jobId userId : String)
    (maxComments : Nat) (options : FilterOptions) (st : StoreState)
    (j : JobRecord) (posts1 : List PostDoc)
    (hj : st.job = some j) (hs : ¬(j.status = .active))
    (hc : env.hasValidCookies = true) (hl : env.liAtPresent = true)
    (hg : env.loginOk = true)
    (hins : insertManyOrdered st.posts
      ((env.scrapedKeyword ++ env.scrapedFeed).map (cwPostDoc jobId)) = .ok posts1)
    (hfail : ∀ p ∈ (filterPosts (env.scrapedKeyword ++ env.scrapedFeed)
        options).take maxComments, env.commentOk p.postUrl = false) :
    (commentWorkerHandler env jobId userId maxComments options st).outcome =
      .done 0 env.scrapedKeyword.length ∧
    (commentWorkerHandler env jobId userId maxComments options st).store.job.map
      (·.status) = some .completed ∧
    ((commentWorkerHandler env jobId userId maxComments options st).store.job.bind
      (·.result)).map (·.success) = some true ∧
    ((commentWorkerHandler env jobId userId maxComments options st).store.job.bind
      (·.result)).map (·.commentedCount) = some 0 ∧
    ((commentWorkerHandler env jobId userId maxComments options st).store.job.bind
      (·.result)).map (·.srFailed) =
      some ((filterPosts (env.scrapedKeyword ++ env.scrapedFeed) options).take
        maxComments).length ∧
    (commentWorkerHandler env jobId userId maxComments options st).store.reports.map
      (·.commentsPosted) = st.reports.map (·.commentsPosted) ++ [0] ∧
    (commentWorkerHandler env jobId userId maxComments options st).store.reports.map
      (·.failed) = st.reports.map (·.failed) ++
      [((filterPosts (env.scrapedKeyword ++ env.scrapedFeed) options).take
        maxComments).length] := by
  unfold commentWorkerHandler
  rw [hj]
  simp only [if_neg hs]
  unfold cwTry
  simp only [hc, hl, hg, Bool.not_true, Bool.false_eq_true, if_false,
    updateJob_posts, hins]
  rw [cwActLoop_all_fail env _ _ 0 0 hfail]
  simp [hj]

/-- C6 (witness): a concrete run in which both selected candidates fail to
act; the job still completes with `success: true`. -/
theorem allItemFailures_job_completes_witness :
    (commentWorkerHandler envAllActFail "j1" "u1" 5 {} stWaiting).outcome =
      .done 0 envAllActFail.scrapedKeyword.length ∧
    (commentWorkerHandler envAllActFail "j1" "u1" 5 {} stWaiting).store.job.map
      (·.status) = some .completed ∧
    ((commentWorkerHandler envAllActFail "j1" "u1" 5 {} stWaiting).store.job.bind
      (·.result)).map (·.success) = some true ∧
    ((commentWorkerHandler envAllActFail "j1" "u1" 5 {} stWaiting).store.job.bind
      (·.result)).map (·.commentedCount) = some 0 ∧
    ((commentWorkerHandler envAllActFail "j1" "u1" 5 {} stWaiting).store.job.bind
      (·.result)).map (·.srFailed) =
      some ((filterPosts (envAllActFail.scrapedKeyword ++ envAllActFail.scrapedFeed)
        {}).take 5).length ∧
    (commentWorkerHandler envAllActFail "j1" "u1" 5 {} stWaiting).store.reports.map
      (·.commentsPosted) = stWaiting.reports.map (·.commentsPosted) ++ [0] ∧
    (commentWorkerHandler envAllActFail "j1" "u1" 5 {} stWaiting).store.reports.map
      (·.failed) = stWaiting.reports.map (·.failed) ++
      [((filterPosts (envAllActFail.scrapedKeyword ++ envAllActFail.scrapedFeed)
        {}).take 5).length] :=
  allItemFailures_job_completes envAllActFail "j1" "u1" 5 {} stWaiting jWaiting
    [cwPostDoc "j1" pA, cwPostDoc "j1" pB] rfl (by decide) rfl rfl rfl rfl
    (by decide)
